import Mathlib

/-!
Shallow embedding of the `dns_changer` interactive utility (src/src/main.rs).

The program shells out to the external network-management tool; we model each
external process invocation by an `Invocation` record (program name and
argument list) and feed every routine an explicit list of `CmdResponse`
oracles, one consumed per invocation in program order.  Each routine returns
the `Except`-style result the Rust function returns, the ordered trace of
invocations it performed, and the unconsumed responses.

Rust string operations (`split(':')`, `lines()`, `contains`, `format!`) are
modelled over `List Char` so that all definitions evaluate by kernel
reduction.
-/

/-- Splits a character list at every occurrence of `c`, keeping empty
segments, like Rust `str::split(c)`. `acc` holds the current segment
reversed. -/
def splitCharAux (c : Char) : List Char → List Char → List (List Char)
  | [], acc => [acc.reverse]
  | x :: xs, acc =>
    if x = c then acc.reverse :: splitCharAux c xs []
    else splitCharAux c xs (x :: acc)

/-- Rust `str::split(c).collect::<Vec<_>>()`. -/
def splitChar (c : Char) (s : String) : List String :=
  (splitCharAux c s.data []).map fun l => String.mk l

/-- Drops one trailing carriage return, used by the `lines()` model for
segments that were terminated by a newline. -/
def stripCR (l : List Char) : List Char :=
  match l.getLast? with
  | some c => if c = '\r' then l.dropLast else l
  | none => l

/-- Rust `str::lines().collect::<Vec<_>>()`: split at `'\n'`, drop the final
empty segment produced by a trailing newline, and strip the `'\r'` of a
`"\r\n"` terminator (only segments actually followed by a newline). -/
def rustLines (s : String) : List String :=
  let raw := splitCharAux '\n' s.data []
  let body := (raw.dropLast.map stripCR).map fun l => String.mk l
  match raw.getLast? with
  | some [] => body
  | some l => body ++ [String.mk l]
  | none => []

/-- `isPrefixL p s` holds when `p` is a prefix of `s`. -/
def isPrefixL : List Char → List Char → Bool
  | [], _ => true
  | _ :: _, [] => false
  | p :: ps, x :: xs => p = x && isPrefixL ps xs

/-- Substring containment over character lists. -/
def containsSub : List Char → List Char → Bool
  | [], pat => pat.isEmpty
  | s@(_ :: xs), pat => isPrefixL pat s || containsSub xs pat

/-- Rust `str::contains(pat)`. -/
def strContains (s pat : String) : Bool :=
  containsSub s.data pat.data

/-- The provider record of `main.rs`. -/
structure DnsProvider where
  name : String
  primary_dns : String
  secondary_dns : String
  description : String
deriving Repr, DecidableEq, Inhabited

/-- The fixed four-entry catalog constructed in `DnsChanger::new`. -/
def dnsProviders : List DnsProvider :=
  [ { name := "Cloudflare", primary_dns := "1.1.1.1", secondary_dns := "1.0.0.1",
      description := "Fast and privacy-focused DNS" },
    { name := "Google", primary_dns := "8.8.8.8", secondary_dns := "8.8.4.4",
      description := "Reliable Google DNS" },
    { name := "Quad9", primary_dns := "9.9.9.9", secondary_dns := "149.112.112.112",
      description := "Security-focused DNS" },
    { name := "OpenDNS", primary_dns := "208.67.222.222", secondary_dns := "208.67.220.220",
      description := "Family-safe DNS" } ]

/-- Outcome of one external process run: exit-status classification, the
captured stdout (`none` models bytes that are not valid UTF-8), and the
captured stderr (already lossily decoded, as `from_utf8_lossy` never
fails). -/
structure CmdResult where
  success : Bool
  stdout : Option String
  stderr : String
deriving Repr, DecidableEq

/-- What the operating system answers to one `.output()` / `.status()` call:
either the spawn failed with an I/O error message, or the process ran and
produced a `CmdResult`. -/
abbrev CmdResponse := Except String CmdResult

abbrev Responses := List CmdResponse

deriving instance DecidableEq for Except

/-- The `anyhow::Error` values this program can construct. -/
inductive AppError where
  | ioErr (m : String)
  | utf8Err
  | msg (s : String)
deriving Repr, DecidableEq

/-- The display text of the error, as printed by `eprintln!("Error: {}", e)`. -/
def errMessage : AppError → String
  | .ioErr m => m
  | .utf8Err => "invalid utf-8 sequence"
  | .msg s => s

/-- One external process invocation: the spawned program and its argument
list. -/
structure Invocation where
  program : String
  args : List String
deriving Repr, DecidableEq

/-- `sudo nmcli <args>`, the shape of every privileged invocation. -/
def sudoNmcli (args : List String) : Invocation :=
  { program := "sudo", args := "nmcli" :: args }

/-- The outcome of running a routine against a list of oracle responses. -/
structure RunResult (α : Type) where
  result : Except AppError α
  trace : List Invocation
  rest : Responses
deriving Repr

/-- `DnsChanger::execute_command`: run `sudo nmcli <args>`, propagate spawn
errors, and turn a non-zero exit into `anyhow!("Command failed: {stderr}")`. -/
def execute_command (args : List String) (rs : Responses) : RunResult Unit :=
  let inv := sudoNmcli args
  match rs with
  | [] => ⟨.error (.ioErr "no response"), [inv], []⟩
  | r :: rest =>
    match r with
    | .error e => ⟨.error (.ioErr e), [inv], rest⟩
    | .ok out =>
      if out.success then ⟨.ok (), [inv], rest⟩
      else ⟨.error (.msg ("Command failed: " ++ out.stderr)), [inv], rest⟩

/-- `DnsChanger::restart_connection`: `sudo nmcli connection down <conn>`
with the entire outcome discarded (`let _ = ...`), then
`sudo nmcli connection up <conn>` whose spawn error propagates and whose
non-zero exit becomes `anyhow!("Failed to restart connection: {stderr}")`. -/
def restart_connection (conn : String) (rs : Responses) : RunResult Unit :=
  let downInv := sudoNmcli ["connection", "down", conn]
  let upInv := sudoNmcli ["connection", "up", conn]
  match rs.tail with
  | [] => ⟨.error (.ioErr "no response"), [downInv, upInv], []⟩
  | r :: rest =>
    match r with
    | .error e => ⟨.error (.ioErr e), [downInv, upInv], rest⟩
    | .ok out =>
      if out.success then ⟨.ok (), [downInv, upInv], rest⟩
      else ⟨.error (.msg ("Failed to restart connection: " ++ out.stderr)),
            [downInv, upInv], rest⟩

/-- The argument list `set_dns` passes to `execute_command`. -/
def dnsModArgs (conn p s : String) : List String :=
  ["connection", "mod", conn, "ipv4.dns", p ++ " " ++ s, "ipv4.ignore-auto-dns", "yes"]

/-- `DnsChanger::set_dns`: join the two addresses with one space
(`format!("{} {}", primary, secondary)`), modify the connection through
`execute_command`, and on success restart the connection. -/
def set_dns (conn primary secondary : String) (rs : Responses) : RunResult Unit :=
  let r1 := execute_command (dnsModArgs conn primary secondary) rs
  match r1.result with
  | .error e => ⟨.error e, r1.trace, r1.rest⟩
  | .ok _ =>
    let r2 := restart_connection conn r1.rest
    ⟨r2.result, r1.trace ++ r2.trace, r2.rest⟩

/-- The argument list `set_automatic_dns` passes to `execute_command`. -/
def autoModArgs (conn : String) : List String :=
  ["connection", "mod", conn, "ipv4.dns", "", "ipv4.ignore-auto-dns", "no",
   "ipv6.ignore-auto-dns", "no"]

/-- `DnsChanger::set_automatic_dns`: clear `ipv4.dns`, set both
ignore-auto-dns flags to `"no"` through `execute_command`, then restart. -/
def set_automatic_dns (conn : String) (rs : Responses) : RunResult Unit :=
  let r1 := execute_command (autoModArgs conn) rs
  match r1.result with
  | .error e => ⟨.error e, r1.trace, r1.rest⟩
  | .ok _ =>
    let r2 := restart_connection conn r1.rest
    ⟨r2.result, r1.trace ++ r2.trace, r2.rest⟩

/-- The line scan of `get_active_connection`: split each line at `':'` and
return `parts[0]` of the first line with at least two fields and a non-empty
`parts[1]`. -/
def firstActiveName : List String → Option String
  | [] => none
  | line :: rest =>
    match splitChar ':' line with
    | p0 :: p1 :: _ => if p1 ≠ "" then some p0 else firstActiveName rest
    | _ => firstActiveName rest

/-- `DnsChanger::get_active_connection`: run
`nmcli -t -f NAME,DEVICE connection show --active` (unprivileged), fail on
non-zero exit, decode stdout as UTF-8, and scan its lines. -/
def get_active_connection (rs : Responses) : RunResult String :=
  let inv : Invocation :=
    { program := "nmcli", args := ["-t", "-f", "NAME,DEVICE", "connection", "show", "--active"] }
  match rs with
  | [] => ⟨.error (.ioErr "no response"), [inv], []⟩
  | r :: rest =>
    match r with
    | .error e => ⟨.error (.ioErr e), [inv], rest⟩
    | .ok out =>
      if out.success then
        match out.stdout with
        | none => ⟨.error .utf8Err, [inv], rest⟩
        | some s =>
          match firstActiveName (rustLines s) with
          | some n => ⟨.ok n, [inv], rest⟩
          | none => ⟨.error (.msg "No active connection found"), [inv], rest⟩
      else ⟨.error (.msg "Failed to get active connections"), [inv], rest⟩

/-- The substring filter of `show_current_dns`:
`line.contains("ipv4.dns") || line.contains("ipv4.ignore-auto-dns")`. -/
def lineSelected (line : String) : Bool :=
  strContains line "ipv4.dns" || strContains line "ipv4.ignore-auto-dns"

/-- `DnsChanger::show_current_dns`: run `nmcli connection show <conn>`
(unprivileged); when it exits zero, decode stdout (UTF-8 failure propagates)
and print the lines passing `lineSelected`; when it exits non-zero, print
nothing and continue; then run `resolvectl status` discarding its outcome
entirely.  The `result` carries the list of configuration lines printed. -/
def show_current_dns (conn : String) (rs : Responses) : RunResult (List String) :=
  let showInv : Invocation := { program := "nmcli", args := ["connection", "show", conn] }
  let resolveInv : Invocation := { program := "resolvectl", args := ["status"] }
  match rs with
  | [] => ⟨.error (.ioErr "no response"), [showInv], []⟩
  | r :: rest =>
    match r with
    | .error e => ⟨.error (.ioErr e), [showInv], rest⟩
    | .ok out =>
      if out.success then
        match out.stdout with
        | none => ⟨.error .utf8Err, [showInv], rest⟩
        | some s =>
          ⟨.ok ((rustLines s).filter lineSelected), [showInv, resolveInv], rest.tail⟩
      else ⟨.ok [], [showInv, resolveInv], rest.tail⟩

/-- `DnsChanger::select_provider`: a submenu selection over the catalog
(`Select` can fail with an I/O error), then `set_dns` with the chosen
provider's addresses. -/
def select_provider (conn : String) (providers : List DnsProvider)
    (sel : Except String Nat) (rs : Responses) : RunResult Unit :=
  match sel with
  | .error e => ⟨.error (.ioErr e), [], rs⟩
  | .ok i =>
    let p := providers.getD i default
    set_dns conn p.primary_dns p.secondary_dns rs

/-- `DnsChanger::set_custom_dns`: two free-text prompts (each can fail with
an I/O error), then `set_dns` with the entered strings verbatim — no
validation of any kind. -/
def set_custom_dns (conn : String) (primary secondary : Except String String)
    (rs : Responses) : RunResult Unit :=
  match primary with
  | .error e => ⟨.error (.ioErr e), [], rs⟩
  | .ok p =>
    match secondary with
    | .error e => ⟨.error (.ioErr e), [], rs⟩
    | .ok s => set_dns conn p s rs

/-- The interactive inputs one `show_menu` call may consume: the main menu
selection and, depending on the branch taken, the provider submenu selection
or the two custom-DNS text prompts. -/
structure MenuInput where
  sel : Except String Nat
  provSel : Except String Nat
  primary : Except String String
  secondary : Except String String
deriving Repr

/-- What one `show_menu` call does to the process: either it terminated the
process (`std::process::exit`) or it returned a `Result` to the loop. -/
inductive MenuOutcome where
  | exited (code : Nat)
  | ret (res : Except AppError Unit)
deriving Repr, DecidableEq

/-- `DnsChanger::show_menu`: prompt for a selection (propagating a prompt
I/O failure) and dispatch: 0 provider menu, 1 custom DNS, 2 automatic DNS,
3 show current DNS, 4 `std::process::exit(1)`, anything else `Ok(())`. -/
def show_menu (conn : String) (providers : List DnsProvider) (inp : MenuInput)
    (rs : Responses) : MenuOutcome × List Invocation × Responses :=
  match inp.sel with
  | .error e => (.ret (.error (.ioErr e)), [], rs)
  | .ok 0 =>
    let r := select_provider conn providers inp.provSel rs
    (.ret r.result, r.trace, r.rest)
  | .ok 1 =>
    let r := set_custom_dns conn inp.primary inp.secondary rs
    (.ret r.result, r.trace, r.rest)
  | .ok 2 =>
    let r := set_automatic_dns conn rs
    (.ret r.result, r.trace, r.rest)
  | .ok 3 =>
    let r := show_current_dns conn rs
    (.ret (r.result.map fun _ => ()), r.trace, r.rest)
  | .ok 4 => (.exited 1, [], rs)
  | .ok (_ + 5) => (.ret (.ok ()), [], rs)

/-- How a (finite prefix of the) main loop ends: the process exited through
the Exit branch, or the supplied iterations ran out and the loop is blocked
waiting for the next interactive input. -/
inductive LoopOutcome where
  | exited (code : Nat)
  | pending
deriving Repr, DecidableEq

/-- The `loop` in `main`: each iteration runs `show_menu`; an `Err` is
printed to stderr as `"Error: <message>"` and the loop continues; an `Ok`
continues silently; a process exit stops everything.  Returns the stderr
lines in order and how the run ended. -/
def run_loop (conn : String) (providers : List DnsProvider) :
    List (MenuInput × Responses) → List String × LoopOutcome
  | [] => ([], .pending)
  | (inp, rs) :: more =>
    match show_menu conn providers inp rs with
    | (.exited c, _, _) => ([], .exited c)
    | (.ret (.error e), _, _) =>
      let r := run_loop conn providers more
      (("Error: " ++ errMessage e) :: r.1, r.2)
    | (.ret (.ok _), _, _) => run_loop conn providers more

/-- `main`: `DnsChanger::new` runs `get_active_connection` once; its failure
is fatal (the `?` aborts the process before the loop); otherwise the loop
runs with the discovered connection and the fixed catalog. -/
def main_model (startup : Responses) (iters : List (MenuInput × Responses)) :
    Except AppError (List String × LoopOutcome) :=
  match (get_active_connection startup).result with
  | .error e => .error e
  | .ok conn => .ok (run_loop conn dnsProviders iters)

/-- Modelled from the spec (§4.9): what the connection-restart step would be
if it were routed through the Command Executor, the claimed "sole interaction
point": `execute_command ["connection","down",conn]` followed on success by
`execute_command ["connection","up",conn]`. -/
def restart_via_executor (conn : String) (rs : Responses) : RunResult Unit :=
  let r1 := execute_command ["connection", "down", conn] rs
  match r1.result with
  | .error e => ⟨.error e, r1.trace, r1.rest⟩
  | .ok _ =>
    let r2 := execute_command ["connection", "up", conn] r1.rest
    ⟨r2.result, r1.trace ++ r2.trace, r2.rest⟩

/-- Spec-side reading of the scan condition: the DEVICE field (second
colon-separated field) of the line exists and is non-empty. -/
def lineActive (line : String) : Bool :=
  match splitChar ':' line with
  | _ :: p1 :: _ => p1 != ""
  | _ => false

/-- Spec-side reading of the returned value: the NAME field, the text before
the first colon. -/
def nameField (line : String) : String :=
  (splitChar ':' line).headD ""

/-! ## Helper lemmas -/

theorem execute_command_trace (args : List String) (rs : Responses) :
    (execute_command args rs).trace = [sudoNmcli args] := by
  cases rs with
  | nil => rfl
  | cons r rest =>
    cases r with
    | error e => rfl
    | ok out => cases h : out.success <;> simp [execute_command, h]

theorem restart_connection_trace (conn : String) (rs : Responses) :
    (restart_connection conn rs).trace =
      [sudoNmcli ["connection", "down", conn], sudoNmcli ["connection", "up", conn]] := by
  cases rs with
  | nil => rfl
  | cons r1 rest1 =>
    cases rest1 with
    | nil => rfl
    | cons r2 rest =>
      cases r2 with
      | error e => rfl
      | ok out => cases h : out.success <;> simp [restart_connection, h]

theorem set_dns_trace_cases (conn p s : String) (rs : Responses) :
    (set_dns conn p s rs).trace = [sudoNmcli (dnsModArgs conn p s)] ∨
    (set_dns conn p s rs).trace =
      [sudoNmcli (dnsModArgs conn p s), sudoNmcli ["connection", "down", conn],
       sudoNmcli ["connection", "up", conn]] := by
  simp only [set_dns]
  cases h : (execute_command (dnsModArgs conn p s) rs).result with
  | error e => left; simp [execute_command_trace]
  | ok u => right; simp [execute_command_trace, restart_connection_trace]

theorem set_automatic_dns_trace_cases (conn : String) (rs : Responses) :
    (set_automatic_dns conn rs).trace = [sudoNmcli (autoModArgs conn)] ∨
    (set_automatic_dns conn rs).trace =
      [sudoNmcli (autoModArgs conn), sudoNmcli ["connection", "down", conn],
       sudoNmcli ["connection", "up", conn]] := by
  simp only [set_automatic_dns]
  cases h : (execute_command (autoModArgs conn) rs).result with
  | error e => left; simp [execute_command_trace]
  | ok u => right; simp [execute_command_trace, restart_connection_trace]

theorem set_dns_first_inv (conn p s : String) (rs : Responses) :
    (set_dns conn p s rs).trace.head? = some (sudoNmcli (dnsModArgs conn p s)) := by
  rcases set_dns_trace_cases conn p s rs with h | h <;> rw [h] <;> rfl

theorem isPrefixL_append (s t : List Char) : isPrefixL s (s ++ t) = true := by
  induction s with
  | nil => rfl
  | cons c cs ih => simp [isPrefixL, ih]

theorem isPrefixL_refl (s : List Char) : isPrefixL s s = true := by
  have h := isPrefixL_append s []
  simpa using h

theorem containsSub_append (pre s : List Char) : containsSub (pre ++ s) s = true := by
  induction pre with
  | nil =>
    cases s with
    | nil => rfl
    | cons c cs => simp [containsSub, isPrefixL_refl]
  | cons c pres ih => simp [containsSub, ih]

theorem strContains_append (pre s : String) : strContains (pre ++ s) s = true := by
  have hd : (pre ++ s).data = pre.data ++ s.data := by
    cases pre
    cases s
    rfl
  rw [strContains, hd]
  exact containsSub_append _ _

theorem firstActiveName_eq_find (lines : List String) :
    firstActiveName lines = (lines.find? lineActive).map nameField := by
  induction lines with
  | nil => rfl
  | cons line rest ih =>
    rw [List.find?]
    rcases hs : splitChar ':' line with _ | ⟨p0, _ | ⟨p1, ps⟩⟩
    · simp [firstActiveName, lineActive, hs, ih]
    · simp [firstActiveName, lineActive, hs, ih]
    · by_cases h : p1 = ""
      · simp [firstActiveName, lineActive, hs, h, ih]
      · have hb : (p1 != "") = true := bne_iff_ne.mpr h
        simp [firstActiveName, lineActive, nameField, hs, hb, h]

theorem firstActiveName_cons_active (line : String) (rest : List String)
    (h : lineActive line = true) :
    firstActiveName (line :: rest) = some (nameField line) := by
  unfold lineActive at h
  rcases hs : splitChar ':' line with _ | ⟨p0, _ | ⟨p1, ps⟩⟩
  · rw [hs] at h; simp at h
  · rw [hs] at h; simp at h
  · rw [hs] at h
    have h' : p1 ≠ "" := by simpa using h
    simp [firstActiveName, hs, h', nameField]

/-! ## Claims -/

/-- Claim C1: for every primary/secondary pair reaching the DNS apply
routine — from the four-entry catalog through `select_provider` or entered
verbatim and unvalidated through `set_custom_dns` — the modify invocation
passes `"<primary> <secondary>"` (one single space, nothing else) as the
`ipv4.dns` value and sets `ipv4.ignore-auto-dns` to `"yes"` in the same
invocation. -/
theorem c1_dns_value (conn p s : String) (i : Nat) (hi : i < dnsProviders.length)
    (rs : Responses) :
    (set_dns conn p s rs).trace.head? =
      some (sudoNmcli ["connection", "mod", conn, "ipv4.dns", p ++ " " ++ s,
        "ipv4.ignore-auto-dns", "yes"])
  ∧ set_custom_dns conn (Except.ok p) (Except.ok s) rs = set_dns conn p s rs
  ∧ (select_provider conn dnsProviders (Except.ok i) rs).trace.head? =
      some (sudoNmcli ["connection", "mod", conn, "ipv4.dns",
        (dnsProviders.getD i default).primary_dns ++ " " ++
          (dnsProviders.getD i default).secondary_dns,
        "ipv4.ignore-auto-dns", "yes"]) := by
  refine ⟨set_dns_first_inv conn p s rs, rfl, ?_⟩
  exact set_dns_first_inv conn _ _ rs

/-- Witness for C1 at the Google catalog entry. -/
theorem c1_witness :
    (set_dns "c" "8.8.8.8" "8.8.4.4" []).trace.head? =
      some (sudoNmcli ["connection", "mod", "c", "ipv4.dns", "8.8.8.8" ++ " " ++ "8.8.4.4",
        "ipv4.ignore-auto-dns", "yes"]) :=
  (c1_dns_value "c" "8.8.8.8" "8.8.4.4" 1 (by decide) []).1

/-- Claim C2: discovery returns the NAME field (text before the first colon)
of the first line whose DEVICE field (second colon-separated field) is
non-empty, independent of later lines (e.g. `"conn1:eth0\nconn2:\nconn3:wlan0"`
yields `"conn1"`), and yields a discovery error exactly in the remaining
cases: non-zero exit, output that is not valid text, or no line with a
non-empty second field (including empty input). -/
theorem c2_active_connection_discovery :
    (∀ lines, firstActiveName lines = (lines.find? lineActive).map nameField)
  ∧ (∀ line rest, lineActive line = true →
       firstActiveName (line :: rest) = some (nameField line))
  ∧ (get_active_connection
       [Except.ok { success := true, stdout := some "conn1:eth0\nconn2:\nconn3:wlan0",
                    stderr := "" }]).result = Except.ok "conn1"
  ∧ (∀ out rest, out.success = false →
       (get_active_connection (Except.ok out :: rest)).result =
         Except.error (AppError.msg "Failed to get active connections"))
  ∧ (∀ out rest, out.success = true → out.stdout = none →
       (get_active_connection (Except.ok out :: rest)).result = Except.error AppError.utf8Err)
  ∧ (∀ out s rest, out.success = true → out.stdout = some s →
       ((∀ n, firstActiveName (rustLines s) = some n →
           (get_active_connection (Except.ok out :: rest)).result = Except.ok n)
        ∧ (firstActiveName (rustLines s) = none →
           (get_active_connection (Except.ok out :: rest)).result =
             Except.error (AppError.msg "No active connection found")))) := by
  refine ⟨firstActiveName_eq_find, firstActiveName_cons_active, by decide, ?_, ?_, ?_⟩
  · intro out rest h
    simp [get_active_connection, h]
  · intro out rest h h2
    simp [get_active_connection, h, h2]
  · intro out s rest h h2
    constructor
    · intro n hn
      simp [get_active_connection, h, h2, hn]
    · intro hn
      simp [get_active_connection, h, h2, hn]

/-- Witness for C2: a failed listing command is a discovery error, and the
spec example input returns the first active name. -/
theorem c2_witness :
    (get_active_connection
       [Except.ok { success := false, stdout := some "", stderr := "" }]).result =
      Except.error (AppError.msg "Failed to get active connections") :=
  c2_active_connection_discovery.2.2.2.1
    { success := false, stdout := some "", stderr := "" } [] rfl

/-- Claim C3: the Automatic DNS action, for any prior state (any response
oracle), issues one single modify invocation setting `ipv4.dns` to the empty
string and both `ipv4.ignore-auto-dns` and `ipv6.ignore-auto-dns` to
`"no"`, and when that modify succeeds it performs the connection restart
(down then up). -/
theorem c3_automatic_dns (conn : String) (rs : Responses) (out : CmdResult)
    (rest : Responses) (h : out.success = true) :
    (set_automatic_dns conn rs).trace.head? =
      some (sudoNmcli ["connection", "mod", conn, "ipv4.dns", "",
        "ipv4.ignore-auto-dns", "no", "ipv6.ignore-auto-dns", "no"])
  ∧ (set_automatic_dns conn (Except.ok out :: rest)).trace =
      [sudoNmcli ["connection", "mod", conn, "ipv4.dns", "",
        "ipv4.ignore-auto-dns", "no", "ipv6.ignore-auto-dns", "no"],
       sudoNmcli ["connection", "down", conn],
       sudoNmcli ["connection", "up", conn]] := by
  constructor
  · rcases set_automatic_dns_trace_cases conn rs with ht | ht <;> rw [ht] <;> rfl
  · simp [set_automatic_dns, execute_command, h, restart_connection_trace, autoModArgs]

/-- Witness for C3 at a successful modify response. -/
theorem c3_witness :
    (set_automatic_dns "c" [Except.ok { success := true, stdout := some "", stderr := "" }]).trace =
      [sudoNmcli ["connection", "mod", "c", "ipv4.dns", "",
        "ipv4.ignore-auto-dns", "no", "ipv6.ignore-auto-dns", "no"],
       sudoNmcli ["connection", "down", "c"],
       sudoNmcli ["connection", "up", "c"]] :=
  (c3_automatic_dns "c" [] { success := true, stdout := some "", stderr := "" } [] rfl).2

/-- Claim C4: in the restart step the outcome of the down command is
entirely irrelevant (any down response — failure, spawn error — never
prevents the up attempt and is never surfaced), the up command is always
attempted, and a non-zero up exit yields a command-failure error whose
message contains the captured stderr text. -/
theorem c4_restart_policy (conn : String) (r1 r1' r2 : CmdResponse) (rest : Responses) :
    restart_connection conn (r1 :: r2 :: rest) = restart_connection conn (r1' :: r2 :: rest)
  ∧ (restart_connection conn (r1 :: r2 :: rest)).trace =
      [sudoNmcli ["connection", "down", conn], sudoNmcli ["connection", "up", conn]]
  ∧ (∀ out, r2 = Except.ok out → out.success = false →
       (restart_connection conn (r1 :: r2 :: rest)).result =
         Except.error (AppError.msg ("Failed to restart connection: " ++ out.stderr))
       ∧ ∀ e, (restart_connection conn (r1 :: r2 :: rest)).result = Except.error e →
           strContains (errMessage e) out.stderr = true) := by
  refine ⟨rfl, restart_connection_trace conn _, ?_⟩
  intro out hr2 hfail
  subst hr2
  have hres : (restart_connection conn (r1 :: Except.ok out :: rest)).result =
      Except.error (AppError.msg ("Failed to restart connection: " ++ out.stderr)) := by
    simp [restart_connection, hfail]
  refine ⟨hres, ?_⟩
  intro e he
  rw [hres] at he
  cases he
  exact strContains_append "Failed to restart connection: " out.stderr

/-- Witness for C4: down fails to spawn, up exits non-zero with diagnostic
text. -/
theorem c4_witness :
    (restart_connection "c"
       [Except.error "spawn failed",
        Except.ok { success := false, stdout := some "", stderr := "no such connection" }]).result =
      Except.error (AppError.msg ("Failed to restart connection: " ++ "no such connection")) :=
  ((c4_restart_policy "c" (Except.error "spawn failed") (Except.error "spawn failed")
      (Except.ok { success := false, stdout := some "", stderr := "no such connection" }) []).2.2
    { success := false, stdout := some "", stderr := "no such connection" } rfl rfl).1

/-- Claim C5: selecting the Exit menu item terminates the process with exit
status 1, performing no external invocation, and the loop executes no
further iteration after the Exit selection. -/
theorem c5_exit (conn : String) (providers : List DnsProvider) (inp : MenuInput)
    (rs : Responses) (more : List (MenuInput × Responses))
    (h : inp.sel = Except.ok 4) :
    show_menu conn providers inp rs = (MenuOutcome.exited 1, [], rs)
  ∧ run_loop conn providers ((inp, rs) :: more) = ([], LoopOutcome.exited 1) := by
  have hm : show_menu conn providers inp rs = (MenuOutcome.exited 1, [], rs) := by
    simp [show_menu, h]
  exact ⟨hm, by simp [run_loop, hm]⟩

/-- Witness for C5 with a concrete Exit selection and pending iterations. -/
theorem c5_witness :
    run_loop "c" dnsProviders
      [({ sel := Except.ok 4, provSel := Except.ok 0, primary := Except.ok "",
          secondary := Except.ok "" }, []),
       ({ sel := Except.ok 0, provSel := Except.ok 0, primary := Except.ok "",
          secondary := Except.ok "" }, [])] = ([], LoopOutcome.exited 1) :=
  (c5_exit "c" dnsProviders
    { sel := Except.ok 4, provSel := Except.ok 0, primary := Except.ok "",
      secondary := Except.ok "" } []
    [({ sel := Except.ok 0, provSel := Except.ok 0, primary := Except.ok "",
        secondary := Except.ok "" }, [])] rfl).2

theorem show_menu_exited (conn : String) (providers : List DnsProvider) (inp : MenuInput)
    (rs : Responses) (c : Nat) (tr : List Invocation) (rest : Responses)
    (h : show_menu conn providers inp rs = (MenuOutcome.exited c, tr, rest)) :
    inp.sel = Except.ok 4 ∧ c = 1 := by
  cases hsel : inp.sel with
  | error e => simp [show_menu, hsel] at h
  | ok n =>
    rcases n with _ | _ | _ | _ | _ | n <;> simp [show_menu, hsel] at h
    exact ⟨by norm_num, h.1.symm⟩

/-- Claim C6: every error an action or the menu prompt returns is recovered
at the loop boundary — printed to the error stream as one line
`"Error: <message>"` — and the loop continues with the next iteration;
successful iterations continue silently, the loop only ever terminates
through the Exit branch (status 1), and the only non-loop exit is the fatal
startup discovery failure in `main`. -/
theorem c6_loop_error_policy (conn : String) (inp : MenuInput) (rs : Responses)
    (more : List (MenuInput × Responses)) :
    (∀ e tr rest2, show_menu conn dnsProviders inp rs = (MenuOutcome.ret (Except.error e), tr, rest2) →
       run_loop conn dnsProviders ((inp, rs) :: more) =
         (("Error: " ++ errMessage e) :: (run_loop conn dnsProviders more).1,
          (run_loop conn dnsProviders more).2))
  ∧ (∀ tr rest2, show_menu conn dnsProviders inp rs = (MenuOutcome.ret (Except.ok ()), tr, rest2) →
       run_loop conn dnsProviders ((inp, rs) :: more) = run_loop conn dnsProviders more)
  ∧ (∀ c, (run_loop conn dnsProviders ((inp, rs) :: more)).2 = LoopOutcome.exited c →
       (inp.sel = Except.ok 4 ∧ c = 1) ∨
         (run_loop conn dnsProviders more).2 = LoopOutcome.exited c)
  ∧ (∀ startup conn2, (get_active_connection startup).result = Except.ok conn2 →
       main_model startup more = Except.ok (run_loop conn2 dnsProviders more))
  ∧ (∀ startup e, (get_active_connection startup).result = Except.error e →
       main_model startup more = Except.error e) := by
  refine ⟨?_, ?_, ?_, ?_, ?_⟩
  · intro e tr rest2 hm
    simp [run_loop, hm]
  · intro tr rest2 hm
    simp [run_loop, hm]
  · intro c hc
    rcases hm : show_menu conn dnsProviders inp rs with ⟨o, tr, rest2⟩
    cases o with
    | exited c2 =>
      rcases show_menu_exited conn dnsProviders inp rs c2 tr rest2 hm with ⟨hsel, hc2⟩
      left
      simp only [run_loop, hm] at hc
      cases hc
      exact ⟨hsel, hc2⟩
    | ret res =>
      cases res with
      | error e =>
        right
        simp only [run_loop, hm] at hc
        exact hc
      | ok u =>
        right
        simp only [run_loop, hm] at hc
        exact hc
  · intro startup conn2 hg
    simp [main_model, hg]
  · intro startup e hg
    simp [main_model, hg]

/-- Witness for C6: a failed custom-DNS prompt is printed as an
`"Error: <message>"` line and the loop re-prompts (remaining iterations run,
here ending pending). -/
theorem c6_witness :
    run_loop "c" dnsProviders
      [({ sel := Except.ok 1, provSel := Except.ok 0, primary := Except.error "prompt failed",
          secondary := Except.ok "" }, [])] = (["Error: " ++ "prompt failed"], LoopOutcome.pending) :=
  (c6_loop_error_policy "c"
    { sel := Except.ok 1, provSel := Except.ok 0, primary := Except.error "prompt failed",
      secondary := Except.ok "" } [] []).1 (AppError.ioErr "prompt failed") [] [] rfl

/-- Claim C7: the Show Current DNS action prints exactly the lines of the
configuration dump containing `"ipv4.dns"` or `"ipv4.ignore-auto-dns"` as
substrings, in original order (a `List.filter` of the dump's lines), and it
performs no mutation: no invocation it makes is a privileged `sudo`
invocation. -/
theorem c7_show_filter (conn s e : String) (rest : Responses) (rs : Responses) :
    (show_current_dns conn
        (Except.ok { success := true, stdout := some s, stderr := e } :: rest)).result =
      Except.ok ((rustLines s).filter lineSelected)
  ∧ (∀ line, lineSelected line =
       (strContains line "ipv4.dns" || strContains line "ipv4.ignore-auto-dns"))
  ∧ (∀ inv, inv ∈ (show_current_dns conn rs).trace → inv.program ≠ "sudo") := by
  refine ⟨by simp [show_current_dns], fun line => rfl, ?_⟩
  intro inv hinv
  have htr : (show_current_dns conn rs).trace = [⟨"nmcli", ["connection", "show", conn]⟩] ∨
      (show_current_dns conn rs).trace =
        [⟨"nmcli", ["connection", "show", conn]⟩, ⟨"resolvectl", ["status"]⟩] := by
    cases rs with
    | nil => left; rfl
    | cons r rest2 =>
      cases r with
      | error e2 => left; rfl
      | ok out =>
        cases h : out.success with
        | false => right; simp [show_current_dns, h]
        | true =>
          cases h2 : out.stdout with
          | none => left; simp [show_current_dns, h, h2]
          | some s2 => right; simp [show_current_dns, h, h2]
  rcases htr with htr | htr <;> rw [htr] at hinv <;> simp at hinv
  · rw [hinv]
    simp
  · rcases hinv with hinv | hinv <;> rw [hinv] <;> simp

/-- Witness for C7: only the two matching lines of a four-line dump are
printed, in order. -/
theorem c7_witness :
    (show_current_dns "c"
        [Except.ok
          (CmdResult.mk true
            (some "connection.id: c\nipv4.dns: 1.1.1.1 1.0.0.1\nipv4.ignore-auto-dns: yes\nipv6.method: auto")
            "")]).result =
      Except.ok ["ipv4.dns: 1.1.1.1 1.0.0.1", "ipv4.ignore-auto-dns: yes"] := by
  have h := (c7_show_filter "c"
    "connection.id: c\nipv4.dns: 1.1.1.1 1.0.0.1\nipv4.ignore-auto-dns: yes\nipv6.method: auto"
    "" [] []).1
  rw [h]
  decide

/-- Claim C9: when the modify command of the DNS apply routine or of the
Automatic DNS action fails (non-zero exit, or spawn failure), the action
returns that error at once: its trace holds the single modify invocation
and neither the down nor the up command is ever issued. -/
theorem c9_failed_modify_no_restart (conn p s : String) (out : CmdResult)
    (rest : Responses) (h : out.success = false) :
    set_dns conn p s (Except.ok out :: rest) =
      ⟨Except.error (AppError.msg ("Command failed: " ++ out.stderr)),
       [sudoNmcli (dnsModArgs conn p s)], rest⟩
  ∧ set_automatic_dns conn (Except.ok out :: rest) =
      ⟨Except.error (AppError.msg ("Command failed: " ++ out.stderr)),
       [sudoNmcli (autoModArgs conn)], rest⟩
  ∧ (∀ m, set_dns conn p s (Except.error m :: rest) =
      ⟨Except.error (AppError.ioErr m), [sudoNmcli (dnsModArgs conn p s)], rest⟩)
  ∧ (∀ m, set_automatic_dns conn (Except.error m :: rest) =
      ⟨Except.error (AppError.ioErr m), [sudoNmcli (autoModArgs conn)], rest⟩) := by
  refine ⟨?_, ?_, ?_, ?_⟩
  · simp [set_dns, execute_command, h]
  · simp [set_automatic_dns, execute_command, h]
  · intro m; simp [set_dns, execute_command]
  · intro m; simp [set_automatic_dns, execute_command]

/-- Witness for C9: a rejected modify leaves exactly one invocation and the
command-failure error. -/
theorem c9_witness :
    set_dns "c" "1.1.1.1" "1.0.0.1"
        [Except.ok { success := false, stdout := some "", stderr := "invalid property" }] =
      ⟨Except.error (AppError.msg ("Command failed: " ++ "invalid property")),
       [sudoNmcli (dnsModArgs "c" "1.1.1.1" "1.0.0.1")], []⟩ :=
  (c9_failed_modify_no_restart "c" "1.1.1.1" "1.0.0.1"
    { success := false, stdout := some "", stderr := "invalid property" } [] rfl).1

/-- Claim C10: Show Current DNS returns success even when the show query
exits non-zero (printing no configuration lines), its result never depends
on the resolver-status response, and the only errors it can return are the
I/O failure of spawning or reading the show process and a non-UTF-8 show
output. -/
theorem c10_show_error_modes (conn : String) :
    (∀ out rest, out.success = false →
       show_current_dns conn (Except.ok out :: rest) =
         ⟨Except.ok [], [⟨"nmcli", ["connection", "show", conn]⟩,
            ⟨"resolvectl", ["status"]⟩], rest.tail⟩)
  ∧ (∀ r r2 r2' rest,
       (show_current_dns conn (r :: r2 :: rest)).result =
         (show_current_dns conn (r :: r2' :: rest)).result)
  ∧ (∀ rs e, (show_current_dns conn rs).result = Except.error e →
       e = AppError.utf8Err ∨ ∃ m, e = AppError.ioErr m) := by
  refine ⟨?_, ?_, ?_⟩
  · intro out rest h
    simp [show_current_dns, h]
  · intro r r2 r2' rest
    cases r with
    | error e => rfl
    | ok out =>
      cases h : out.success with
      | false => simp [show_current_dns, h]
      | true =>
        cases h2 : out.stdout with
        | none => simp [show_current_dns, h, h2]
        | some s => simp [show_current_dns, h, h2]
  · intro rs e he
    cases rs with
    | nil =>
      simp [show_current_dns] at he
      right
      exact ⟨_, he.symm⟩
    | cons r rest =>
      cases r with
      | error m =>
        simp [show_current_dns] at he
        right
        exact ⟨_, he.symm⟩
      | ok out =>
        cases h : out.success with
        | false => simp [show_current_dns, h] at he
        | true =>
          cases h2 : out.stdout with
          | none =>
            simp [show_current_dns, h, h2] at he
            left
            exact he.symm
          | some s => simp [show_current_dns, h, h2] at he

/-- Witness for C10: a non-zero show query still succeeds, printing
nothing. -/
theorem c10_witness :
    show_current_dns "c"
        [Except.ok { success := false, stdout := none, stderr := "unknown connection" }] =
      ⟨Except.ok [], [⟨"nmcli", ["connection", "show", "c"]⟩,
         ⟨"resolvectl", ["status"]⟩], ([] : Responses).tail⟩ :=
  (c10_show_error_modes "c").1
    { success := false, stdout := none, stderr := "unknown connection" } [] rfl

/-- Counterexample to claim C8: the connection-restart steps do not go
through the Command Executor.  On the same oracle — down exits non-zero
with stderr `"down failed"`, up exits zero — the source `restart_connection`
succeeds, while routing the two steps through `execute_command`
(`restart_via_executor`) fails with the executor's classification
`"Command failed: down failed"`; and when the up step fails, the source
error text differs from the executor's. -/
theorem c8_counterexample :
    (restart_connection "c"
       [Except.ok (CmdResult.mk false (some "") "down failed"),
        Except.ok (CmdResult.mk true (some "") "")]).result = Except.ok ()
  ∧ (restart_via_executor "c"
       [Except.ok (CmdResult.mk false (some "") "down failed"),
        Except.ok (CmdResult.mk true (some "") "")]).result =
      Except.error (AppError.msg "Command failed: down failed")
  ∧ (restart_connection "c"
       [Except.ok (CmdResult.mk false (some "") "down failed"),
        Except.ok (CmdResult.mk true (some "") "")]).result ≠
      (restart_via_executor "c"
       [Except.ok (CmdResult.mk false (some "") "down failed"),
        Except.ok (CmdResult.mk true (some "") "")]).result
  ∧ (restart_connection "c"
       [Except.ok (CmdResult.mk true (some "") ""),
        Except.ok (CmdResult.mk false (some "") "x")]).result =
      Except.error (AppError.msg "Failed to restart connection: x")
  ∧ (restart_via_executor "c"
       [Except.ok (CmdResult.mk true (some "") ""),
        Except.ok (CmdResult.mk false (some "") "x")]).result =
      Except.error (AppError.msg "Command failed: x") := by
  refine ⟨rfl, rfl, ?_, rfl, rfl⟩
  decide

/-- Claim C8 as amended: both mutating actions issue their modify step
through the Command Executor (`execute_command`), whose failure is returned
as the action's failure; every invocation of a mutating action — modify,
down and up included — is an elevated `sudo nmcli` invocation capturing the
tool's output; but the restart steps invoke the tool directly rather than
through the executor routine: the down outcome is discarded entirely, and
the up step applies the same zero/non-zero classification with its own
`"Failed to restart connection: "` message carrying the captured stderr. -/
theorem c8_sole_interaction_amended (conn p s : String) (rs : Responses) :
    (∀ inv, inv ∈ (set_dns conn p s rs).trace →
       inv.program = "sudo" ∧ inv.args.head? = some "nmcli")
  ∧ (∀ inv, inv ∈ (set_automatic_dns conn rs).trace →
       inv.program = "sudo" ∧ inv.args.head? = some "nmcli")
  ∧ (∀ inv, inv ∈ (restart_connection conn rs).trace →
       inv.program = "sudo" ∧ inv.args.head? = some "nmcli")
  ∧ (∀ e, (execute_command (dnsModArgs conn p s) rs).result = Except.error e →
       (set_dns conn p s rs).result = Except.error e)
  ∧ (∀ e, (execute_command (autoModArgs conn) rs).result = Except.error e →
       (set_automatic_dns conn rs).result = Except.error e)
  ∧ (∀ r1 out rest, rs = r1 :: Except.ok out :: rest →
       ((restart_connection conn rs).result = Except.ok () ↔ out.success = true)
       ∧ (out.success = false →
            (restart_connection conn rs).result =
              Except.error (AppError.msg ("Failed to restart connection: " ++ out.stderr)))) := by
  refine ⟨?_, ?_, ?_, ?_, ?_, ?_⟩
  · intro inv hinv
    rcases set_dns_trace_cases conn p s rs with ht | ht <;> rw [ht] at hinv
    · simp at hinv
      subst hinv
      simp [sudoNmcli]
    · simp at hinv
      rcases hinv with h | h | h <;> subst h <;> simp [sudoNmcli]
  · intro inv hinv
    rcases set_automatic_dns_trace_cases conn rs with ht | ht <;> rw [ht] at hinv
    · simp at hinv
      subst hinv
      simp [sudoNmcli]
    · simp at hinv
      rcases hinv with h | h | h <;> subst h <;> simp [sudoNmcli]
  · intro inv hinv
    rw [restart_connection_trace conn rs] at hinv
    simp [sudoNmcli] at hinv
    rcases hinv with h | h <;> subst h <;> simp [sudoNmcli]
  · intro e he
    simp [set_dns, he]
  · intro e he
    simp [set_automatic_dns, he]
  · intro r1 out rest hrs
    subst hrs
    cases h : out.success with
    | false =>
      constructor
      · constructor
        · intro hok
          simp [restart_connection, h] at hok
        · intro htrue
          exact absurd htrue (by decide)
      · intro _
        simp [restart_connection, h]
    | true =>
      constructor
      · constructor
        · intro _
          rfl
        · intro _
          simp [restart_connection, h]
      · intro hfalse
        exact absurd hfalse (by decide)

/-- Witness for C8 as amended: with an empty oracle the executor's spawn
failure is the failure of the DNS apply routine. -/
theorem c8_witness :
    (set_dns "c" "1.1.1.1" "1.0.0.1" []).result = Except.error (AppError.ioErr "no response") :=
  (c8_sole_interaction_amended "c" "1.1.1.1" "1.0.0.1" []).2.2.2.1
    (AppError.ioErr "no response") rfl
